import Mathlib

/-!
Shallow embedding of the `func_archival` package (files `cli.py`,
`submit.py`, `workflows.py`) and proofs about its behaviour.

Python strings are modelled as Lean `String`; Python dicts preserving
insertion order are modelled as association lists `List (String × PyVal)`;
Python exceptions become explicit result constructors; filesystem state is
a partial map `String → Option String` from paths to file contents.
-/

namespace FuncArchival

/-- Values stored in the CLI-built argument dicts: Python `str`, `bool`,
and `float`.  A float is carried together with its printed (repr) form,
since the embedding never computes with it, only prints it. -/
inductive PyVal where
  | str (s : String)
  | bool (b : Bool)
  | float (lit : String)
  deriving DecidableEq, Repr

/-- A Python dict with string keys, in insertion order. -/
abbrev PyDict := List (String × PyVal)

/-- Membership test `k in d.keys()` for the modelled dict. -/
def hasKey (d : PyDict) (k : String) : Bool :=
  d.any (fun kv => kv.1 == k)

/-- Lookup `d[k]` for the modelled dict. -/
def getKey (d : PyDict) (k : String) : Option PyVal :=
  (d.find? (fun kv => kv.1 == k)).map (fun kv => kv.2)

/-! ### workflows.py : `omnibus` required-key checks -/

/-- Required `preproc_args` keys, in the order `workflows.omnibus`
checks them (workflows.py lines 247-255). -/
def preproc_keys : List String :=
  ["sing_fmriprep", "tplflow_dir", "fs_license", "fd_thresh",
   "ignore_fmaps", "no_freesurfer", "sing_afni"]

/-- Required `model_args` keys (workflows.py line 259). -/
def model_keys : List String := ["model_name"]

/-- Outcome of `workflows.omnibus` up to the point where it either raises
a `KeyError` or proceeds to trigger `run_preprocess` (an external
process-launching step). -/
inductive OmnibusOutcome where
  | keyError (which : String) (k : String)
  | runWorkflow
  deriving DecidableEq, Repr

/-- The key-validation phase of `workflows.omnibus` (workflows.py lines
246-262): scan `preproc_keys` in order and raise `KeyError` at the first
key absent from `preproc_args`; then do the same for `model_keys` against
`model_args`; only then trigger the workflow. -/
def omnibus (preproc_args model_args : PyDict) : OmnibusOutcome :=
  match preproc_keys.find? (fun k => !(hasKey preproc_args k)) with
  | some k => .keyError "preproc_args" k
  | none =>
    match model_keys.find? (fun k => !(hasKey model_args k)) with
    | some k => .keyError "model_args" k
    | none => .runWorkflow

/-! ### cli.py : the dicts built by `main` -/

/-- The `preproc_args` dict built by `cli.main` (cli.py lines 172-179),
with its exact keys in insertion order. -/
def cli_preproc_args (sing_fmriprep tplflow_dir fs_license fd_thresh
    ignore_fmaps sing_afni : PyVal) : PyDict :=
  [("sing_fmriprep", sing_fmriprep),
   ("tplflow_dir", tplflow_dir),
   ("fs_license", fs_license),
   ("fd_thresh", fd_thresh),
   ("ignore_fmaps", ignore_fmaps),
   ("sing_afni", sing_afni)]

/-- The `model_args` dict built by `cli.main` (cli.py lines 180-184). -/
def cli_model_args (model_name preproc_type : PyVal) : PyDict :=
  [("model_name", model_name),
   ("model_level", .str "first"),
   ("preproc_type", preproc_type)]

/-! ### String plumbing, on `List Char` for kernel-friendly evaluation -/

/-- Characters counted as whitespace by `textwrap.dedent` (space, tab). -/
def isSpaceTab (c : Char) : Bool := c == ' ' || c == '\t'

/-- A line matching the CPython regex `^[ \t]+$`: nonempty, all
space/tab. -/
def wsOnly (l : List Char) : Bool := !l.isEmpty && l.all isSpaceTab

/-- Leading whitespace of a line, as captured by `(^[ \t]*)(?:[^ \t\n])`. -/
def lineIndent (l : List Char) : List Char := l.takeWhile isSpaceTab

/-- Longest common prefix of two character lists, the combined effect of
the margin-update cases in CPython `textwrap.dedent`. -/
def lcp : List Char → List Char → List Char
  | a :: as, b :: bs => if a = b then a :: lcp as bs else []
  | _, _ => []

/-- Split a character list at newline characters, as `text.split(chr(10))`
does: n newlines give n+1 lines. -/
def splitNl : List Char → List (List Char)
  | [] => [[]]
  | c :: cs =>
    if c = '\n' then [] :: splitNl cs
    else
      match splitNl cs with
      | [] => [[c]]
      | l :: ls => (c :: l) :: ls

/-- Rejoin lines with newline characters. -/
def joinNl (ls : List (List Char)) : List Char := (ls.intersperse ['\n']).flatten

/-- Model of `textwrap.dedent` (CPython): blank (whitespace-only) lines are
normalised to empty, the margin is the longest common prefix of the
leading whitespace of the remaining lines, and that margin is stripped
from the start of every line carrying it. -/
def dedent (s : String) : String :=
  let lines := (splitNl s.data).map (fun l => if wsOnly l then [] else l)
  let indents := (lines.filter (fun l => !l.isEmpty)).map lineIndent
  match indents with
  | [] => ⟨joinNl lines⟩
  | i :: is =>
    let margin := is.foldl lcp i
    if margin.isEmpty then ⟨joinNl lines⟩
    else
      ⟨joinNl (lines.map (fun l =>
        if margin.isPrefixOf l then l.drop margin.length else l))⟩

/-- Python string slice `s[n:]` (by code point). -/
def pySlice (s : String) (n : Nat) : String := ⟨s.data.drop n⟩

/-- Python `repr` of a plain string (single quotes; the embedding assumes
values free of quote characters, matching the known quoting fragility of
the generator). -/
def pyStrRepr (s : String) : String := "\x27" ++ s ++ "\x27"

/-- Python `repr` of a value as embedded into the generated script via
f-string interpolation of a dict. -/
def PyVal.pyRepr : PyVal → String
  | .str s => pyStrRepr s
  | .bool b => if b then "True" else "False"
  | .float lit => lit

/-- Python `str`/`repr` of a dict: `\x7b'k1': v1, 'k2': v2\x7d`. -/
def pyDictRepr (d : PyDict) : String :=
  "\x7b" ++
    String.intercalate ", "
      (d.map (fun kv => pyStrRepr kv.1 ++ ": " ++ kv.2.pyRepr)) ++
  "\x7d"

/-- Model of `posixpath.join` for the two-argument calls in this repo. -/
def ospath_join (a b : String) : String :=
  if "/".data.isPrefixOf b.data then b
  else if a = "" ∨ a.data.getLast? = some '/' then a ++ b
  else a ++ "/" ++ b

/-! ### submit.py : `ScheduleWorkflow` -/

/-- State captured by `ScheduleWorkflow.__init__` (submit.py lines
42-74). -/
structure ScheduleWorkflow where
  subj : String
  sess : String
  proj_dir : String
  work_dir : String
  log_dir : String
  user_name : String
  deriving DecidableEq, Repr

/-- Mutable object state after `__init__`: the `py_script` attribute is
absent until `_write_script` sets it. -/
structure SWState where
  py_script : Option String
  deriving DecidableEq, Repr

/-- Object state right after `__init__`, which sets no `py_script`. -/
def SWState.init : SWState := ⟨none⟩

/-- Filesystem: a partial map from paths to file contents. -/
abbrev Fs := String → Option String

/-- The sbatch preamble returned by `ScheduleWorkflow._sbatch_head`
(submit.py lines 76-84).  The f-string interpolates `sys.executable`, the
path of the running interpreter, modelled as the extra input `pyExe`; the
backslash after the opening quotes suppresses a leading newline, and each
content line carries the 12-space source indentation later removed by
`textwrap.dedent`. -/
def ScheduleWorkflow._sbatch_head (sw : ScheduleWorkflow) (pyExe : String) :
    String :=
  "            #!/bin/env " ++ pyExe ++ "\n" ++
  "            #SBATCH --job-name=p" ++ pySlice sw.subj 4 ++ "\n" ++
  "            #SBATCH --output=" ++ sw.log_dir ++ "/par" ++
    pySlice sw.subj 4 ++ ".txt\n" ++
  "            #SBATCH --time=30:00:00\n" ++
  "            #SBATCH --mem=4000\n" ++
  "        "

/-- The deterministic script filename `run_<wf_name>_<subj>_<sess>.py`
used by `_write_script` (submit.py lines 168-170). -/
def scriptFileName (wf_name subj sess : String) : String :=
  "run_" ++ wf_name ++ "_" ++ subj ++ "_" ++ sess ++ ".py"

/-- The full script path `os.path.join(log_dir, run_<wf>_<subj>_<sess>.py)`. -/
def ScheduleWorkflow.scriptPath (sw : ScheduleWorkflow) (wf_name : String) :
    String :=
  ospath_join sw.log_dir (scriptFileName wf_name sw.subj sw.sess)

/-- `ScheduleWorkflow._write_script` (submit.py lines 166-172): set the
`py_script` attribute to the deterministic path and write `wf_cmd` there,
mode `w` (create or truncate-overwrite, no existence check). -/
def ScheduleWorkflow._write_script (sw : ScheduleWorkflow) (_st : SWState)
    (fs : Fs) (wf_name wf_cmd : String) : SWState × Fs :=
  let p := sw.scriptPath wf_name
  (⟨some p⟩, fun q => if q = p then some wf_cmd else fs q)

/-- The f-string body `py_cmd` assembled by `ScheduleWorkflow.omnibus`
(submit.py lines 199-211) before dedenting: the sbatch head, then the
module import line and the `workflows.omnibus(...)` call with every parameter
interpolated as a literal (strings quoted, dicts via their repr). -/
def ScheduleWorkflow.omnibus_py_cmd (sw : ScheduleWorkflow) (pyExe : String)
    (preproc_args model_args : PyDict) : String :=
  sw._sbatch_head pyExe ++ "\n" ++
  "            from func_process import workflows\n" ++
  "            workflows.omnibus(\n" ++
  "                \"" ++ sw.subj ++ "\",\n" ++
  "                \"" ++ sw.sess ++ "\",\n" ++
  "                \"" ++ sw.proj_dir ++ "\",\n" ++
  "                \"" ++ sw.work_dir ++ "\",\n" ++
  "                \"" ++ sw.log_dir ++ "\",\n" ++
  "                \"" ++ sw.user_name ++ "\",\n" ++
  "                " ++ pyDictRepr preproc_args ++ ",\n" ++
  "                " ++ pyDictRepr model_args ++ ",\n" ++
  "            )\n" ++
  "        "

/-- The generated script body: `textwrap.dedent(py_cmd)` (submit.py line
212). -/
def ScheduleWorkflow.omnibus_body (sw : ScheduleWorkflow) (pyExe : String)
    (preproc_args model_args : PyDict) : String :=
  dedent (sw.omnibus_py_cmd pyExe preproc_args model_args)

/-- `ScheduleWorkflow.omnibus` (submit.py lines 174-213): build the script
body and hand it to `_write_script` under step name `omnibus`. -/
def ScheduleWorkflow.omnibus (sw : ScheduleWorkflow) (st : SWState) (fs : Fs)
    (pyExe : String) (preproc_args model_args : PyDict) : SWState × Fs :=
  sw._write_script st fs "omnibus"
    (sw.omnibus_body pyExe preproc_args model_args)

/-- Result of `ScheduleWorkflow.submit`: either the out-of-order
`AttributeError` or the console line printed after the scheduler call. -/
inductive SubmitOutcome where
  | attributeError (msg : String)
  | printed (txt : String)
  deriving DecidableEq, Repr

/-- `ScheduleWorkflow.submit` (submit.py lines 215-227): if no script was
generated (`py_script` attribute absent) raise `AttributeError` without
touching the filesystem or launching anything; otherwise launch
`sbatch <py_script>`, capture its stdout through `schedOut`, and print it
with the subject and session.  The returned list records the commands
handed to the scheduler. -/
def ScheduleWorkflow.submit (sw : ScheduleWorkflow) (st : SWState) (fs : Fs)
    (schedOut : String → String) : SubmitOutcome × Fs × List String :=
  match st.py_script with
  | none =>
    (.attributeError "Please generate workflow script before envoking submit.",
     fs, [])
  | some p =>
    let cmd := "sbatch " ++ p
    (.printed (schedOut cmd ++ "\tfor " ++ sw.subj ++ ", " ++ sw.sess),
     fs, [cmd])

/-! ### cli.py : argument gate, validation sequence, submission loop -/

/-- Outcome of `_get_args` before any argument parsing: with a bare
`sys.argv` (length 1, the program name only) it prints help and exits 0
(cli.py lines 120-122); otherwise the parser is returned for `main` to
run `parse_args`. -/
inductive GetArgsOutcome where
  | helpExit (code : Nat)
  | parserReady
  deriving DecidableEq, Repr

/-- The zero-argument gate at the end of `_get_args` (cli.py lines
120-124), over the full `sys.argv` (program name included). -/
def get_args (argv : List String) : GetArgsOutcome :=
  if argv.length = 1 then .helpExit 0 else .parserReady

/-- Default of `--proj-dir` (cli.py line 93). -/
def default_proj_dir : String :=
  "/hpc/group/labarlab/EmoRep/Exp3_Classify_Archival/data_mri_BIDS"

/-- Environment values resolved by `main` when all lookups succeed. -/
structure EnvCfg where
  sing_afni : String
  sing_fmriprep : String
  fs_license : String
  tplflow_dir : String
  user_name : String
  deriving DecidableEq, Repr

/-- How the validation prefix of `cli.main` terminates. -/
inductive MainOutcome where
  | fileNotFound (msg : String)
  | keyError (var : String)
  | exitMsg (code : Nat) (msg : String)
  | proceed (cfg : EnvCfg)
  deriving DecidableEq, Repr

/-- Whether an outcome is the printed-message-then-`sys.exit(1)` path. -/
def isMsgExit1 : MainOutcome → Bool
  | .exitMsg 1 _ => true
  | _ => false

/-- The validation prefix of `cli.main` (cli.py lines 142-158), in source
order: the project-directory existence check raises `FileNotFoundError`;
then five bare `os.environ[...]` subscripts each raise an uncaught
`KeyError` when absent; only `FSLDIR` is looked up inside `try/except`,
printing a message and calling `sys.exit(1)`. -/
def main_validate (proj_dir : String) (dirExists : String → Bool)
    (env : String → Option String) : MainOutcome :=
  if !dirExists proj_dir then
    .fileNotFound ("Expected to find directory : " ++ proj_dir)
  else
    match env "SING_AFNI" with
    | none => .keyError "SING_AFNI"
    | some sing_afni =>
      match env "SING_FMRIPREP" with
      | none => .keyError "SING_FMRIPREP"
      | some sing_fmriprep =>
        match env "FS_LICENSE" with
        | none => .keyError "FS_LICENSE"
        | some fs_license =>
          match env "SINGULARITYENV_TEMPLATEFLOW_HOME" with
          | none => .keyError "SINGULARITYENV_TEMPLATEFLOW_HOME"
          | some tplflow_dir =>
            match env "USER" with
            | none => .keyError "USER"
            | some user_name =>
              match env "FSLDIR" with
              | none => .exitMsg 1 "Missing required global variable FSLDIR"
              | some _ =>
                .proceed
                  ⟨sing_afni, sing_fmriprep, fs_license, tplflow_dir,
                   user_name⟩

/-! The submission loop (cli.py lines 186-193), at the granularity of
Python dynamic call resolution.  The loop body constructs
`submit.ScheduleWorkflow` with seven positional arguments and then invokes
the methods `run_all` and `submit` on it; Python raises `TypeError` when
the argument count does not match the `__init__` parameter count, and
`AttributeError` when a named method does not exist on the class. -/

/-- Parameters of `ScheduleWorkflow.__init__` besides `self` (submit.py
lines 42-50). -/
def scheduleWorkflow_init_params : List String :=
  ["subj", "sess", "proj_dir", "work_dir", "log_dir", "user_name"]

/-- Methods defined on `ScheduleWorkflow` (submit.py; `preprocess` and
`model` are commented out in the source). -/
def scheduleWorkflow_methods : List String :=
  ["_sbatch_head", "_write_script", "omnibus", "submit"]

/-- The positional arguments `cli.main` passes to the constructor
(cli.py lines 188-190). -/
def cli_ctor_args : List String :=
  ["subj", "sess_list", "proj_dir", "work_dir", "log_dir", "user_name",
   "rsa_key"]

/-- The method `cli.main` invokes to generate the workflow script
(cli.py line 191). -/
def cli_loop_method : String := "run_all"

/-- Python-level call failures. -/
inductive PyCallErr where
  | typeError (params given : Nat)
  | attributeError (name : String)
  deriving DecidableEq, Repr

/-- Python positional-call semantics for `__init__`: an argument count
differing from the parameter count raises `TypeError`. -/
def pyConstruct (params : List String) (args : List String) :
    Except PyCallErr Unit :=
  if args.length = params.length then .ok () else
    .error (.typeError params.length args.length)

/-- Python attribute lookup for a method call: a name not defined on the
class raises `AttributeError`. -/
def pyInvoke (methods : List String) (name : String) :
    Except PyCallErr Unit :=
  if methods.contains name then .ok () else .error (.attributeError name)

/-- One iteration of the submission loop (cli.py lines 188-192):
construct the workflow object, call `run_all(preproc_args, model_args)`,
call `submit()`. -/
def cli_loop_body : Except PyCallErr Unit := do
  pyConstruct scheduleWorkflow_init_params cli_ctor_args
  pyInvoke scheduleWorkflow_methods cli_loop_method
  pyInvoke scheduleWorkflow_methods "submit"

/-- The whole loop `for subj in subj_list` (cli.py lines 186-193): no
per-subject isolation, the first raise aborts the run; on success the
processed subjects are returned in order. -/
def cli_submit_loop : List String → Except PyCallErr (List String)
  | [] => .ok []
  | subj :: rest =>
    match cli_loop_body with
    | .error e => .error e
    | .ok _ => (cli_submit_loop rest).map (fun l => subj :: l)

/-- A concrete environment in which `SING_AFNI` is unset and every other
variable (including `FSLDIR`) is set. -/
def env_missing_sing_afni : String → Option String := fun k =>
  if k = "SING_AFNI" then none else some "/tools"

end FuncArchival

namespace FuncArchival

/-! ## Theorems -/

/-- Appending the same fixed strings on both sides of a middle segment is
injective in that segment. -/
theorem append_middle_inj (p t s1 s2 : String)
    (h : p ++ s1 ++ t = p ++ s2 ++ t) : s1 = s2 := by
  apply String.ext
  have hd := congrArg String.data h
  simp only [String.data_append] at hd
  exact List.append_cancel_left (List.append_cancel_right hd)

/-- Claim C9: invoking the CLI with zero arguments (a `sys.argv` holding
only the program name) prints usage and exits with status 0, before any
required argument is parsed. -/
theorem C9_no_args_prints_help_exits_zero (prog : String) :
    get_args [prog] = .helpExit 0 := rfl

/-- Claim C10: with no project-directory override and the default project
directory absent, `main` raises `FileNotFoundError` reporting the path;
the outcome is the same for every environment, so no environment variable
is read, no log directory is created and no script is generated. -/
theorem C10_missing_default_proj_dir (dirExists : String → Bool)
    (env : String → Option String)
    (h : dirExists default_proj_dir = false) :
    main_validate default_proj_dir dirExists env
      = .fileNotFound ("Expected to find directory : " ++ default_proj_dir) := by
  simp [main_validate, h]

/-- Witness for C10 at a concrete filesystem and environment. -/
theorem C10_witness :
    main_validate default_proj_dir (fun _ => false) (fun _ => none)
      = .fileNotFound ("Expected to find directory : " ++ default_proj_dir) :=
  C10_missing_default_proj_dir (fun _ => false) (fun _ => none) rfl

/-- Claim C3: on a `ScheduleWorkflow` whose generate step has not run
(object state as left by `__init__`), `submit` raises the out-of-order
`AttributeError` and performs no filesystem or process side effect: the
filesystem is returned unchanged and no scheduler command is launched. -/
theorem C3_submit_before_generate_raises (sw : ScheduleWorkflow) (fs : Fs)
    (schedOut : String → String) :
    sw.submit SWState.init fs schedOut
      = (.attributeError
          "Please generate workflow script before envoking submit.",
         fs, []) := rfl

/-- Claim C5: the `preproc_args` dict built by `cli.main` has exactly the
keys `sing_fmriprep, tplflow_dir, fs_license, fd_thresh, ignore_fmaps,
sing_afni` and omits `no_freesurfer`, so `workflows.omnibus` applied to it
raises `KeyError` naming `no_freesurfer` for every choice of values and
every `model_args`, before any workflow runs. -/
theorem C5_cli_record_triggers_no_freesurfer_keyerror
    (v1 v2 v3 v4 v5 v6 : PyVal) (m : PyDict) :
    omnibus (cli_preproc_args v1 v2 v3 v4 v5 v6) m
      = .keyError "preproc_args" "no_freesurfer" := rfl

/-- Claim C1: the submission loop of `cli.main` does not reach
generate-then-submit: its first iteration raises `TypeError`, because the
constructor call passes seven positional arguments to the six-parameter
`ScheduleWorkflow.__init__`, and the invoked method `run_all` does not
even exist on the class; for the run with subject list `[sub-08326]` no
subject is processed and no script is generated or submitted. -/
theorem C1_cli_loop_raises_type_error :
    cli_submit_loop ["sub-08326"] = .error (.typeError 6 7)
    ∧ cli_loop_body = .error (.typeError 6 7)
    ∧ scheduleWorkflow_methods.contains cli_loop_method = false :=
  ⟨rfl, rfl, rfl⟩

/-- Claim C8: re-running `omnibus` for the same subject and session
overwrites the previously generated file: after two generations the path
holds exactly the newly generated content, every other path is untouched
relative to the original filesystem, and the object state is the same
single script path; the write is unconditional in the prior filesystem
content, so no check for an earlier script or in-flight job occurs. -/
theorem C8_regeneration_overwrites (sw : ScheduleWorkflow) (st : SWState)
    (fs : Fs) (exe1 exe2 : String) (pa1 pa2 ma1 ma2 : PyDict) :
    (sw.omnibus (sw.omnibus st fs exe1 pa1 ma1).1
        (sw.omnibus st fs exe1 pa1 ma1).2 exe2 pa2 ma2).2
        (sw.scriptPath "omnibus")
      = some (sw.omnibus_body exe2 pa2 ma2)
    ∧ (∀ q, q ≠ sw.scriptPath "omnibus" →
        (sw.omnibus (sw.omnibus st fs exe1 pa1 ma1).1
            (sw.omnibus st fs exe1 pa1 ma1).2 exe2 pa2 ma2).2 q = fs q)
    ∧ (sw.omnibus (sw.omnibus st fs exe1 pa1 ma1).1
          (sw.omnibus st fs exe1 pa1 ma1).2 exe2 pa2 ma2).1
        = (sw.omnibus st fs exe1 pa1 ma1).1 := by
  refine ⟨?_, ?_, rfl⟩
  · simp [ScheduleWorkflow.omnibus, ScheduleWorkflow._write_script]
  · intro q hq
    simp [ScheduleWorkflow.omnibus, ScheduleWorkflow._write_script, hq]

/-- Witness for C8 on concrete inputs, including a path other than the
script path. -/
theorem C8_witness :
    (ScheduleWorkflow.omnibus ⟨"sub-1", "s", "p", "w", "l", "u"⟩
        (ScheduleWorkflow.omnibus ⟨"sub-1", "s", "p", "w", "l", "u"⟩
          SWState.init (fun _ => none) "pyA" [] []).1
        (ScheduleWorkflow.omnibus ⟨"sub-1", "s", "p", "w", "l", "u"⟩
          SWState.init (fun _ => none) "pyA" [] []).2 "pyB" [] []).2
        (ScheduleWorkflow.scriptPath ⟨"sub-1", "s", "p", "w", "l", "u"⟩
          "omnibus")
      = some (ScheduleWorkflow.omnibus_body
          ⟨"sub-1", "s", "p", "w", "l", "u"⟩ "pyB" [] [])
    ∧ (ScheduleWorkflow.omnibus ⟨"sub-1", "s", "p", "w", "l", "u"⟩
        (ScheduleWorkflow.omnibus ⟨"sub-1", "s", "p", "w", "l", "u"⟩
          SWState.init (fun _ => none) "pyA" [] []).1
        (ScheduleWorkflow.omnibus ⟨"sub-1", "s", "p", "w", "l", "u"⟩
          SWState.init (fun _ => none) "pyA" [] []).2 "pyB" [] []).2
        "zzz" = none :=
  ⟨(C8_regeneration_overwrites ⟨"sub-1", "s", "p", "w", "l", "u"⟩
      SWState.init (fun _ => none) "pyA" "pyB" [] [] [] []).1,
   (C8_regeneration_overwrites ⟨"sub-1", "s", "p", "w", "l", "u"⟩
      SWState.init (fun _ => none) "pyA" "pyB" [] [] [] []).2.1
      "zzz" (by decide)⟩

/-- Counterexample to claim C2 as stated: with `SING_AFNI` unset and every
other required variable set, `main` fails through an uncaught `KeyError`
from the bare `os.environ` subscript, not through the
print-message-then-`sys.exit(1)` path, which the code reserves for
`FSLDIR` alone. -/
theorem C2_counterexample :
    main_validate default_proj_dir (fun _ => true) env_missing_sing_afni
      = .keyError "SING_AFNI"
    ∧ isMsgExit1
        (main_validate default_proj_dir (fun _ => true)
          env_missing_sing_afni) = false :=
  ⟨rfl, rfl⟩

/-- Claim C2 (amended): when the project directory exists, a missing
environment variable makes `main` fail immediately, but in two distinct
ways: each of `SING_AFNI`, `SING_FMRIPREP`, `FS_LICENSE`,
`SINGULARITYENV_TEMPLATEFLOW_HOME`, `USER` (read in that order) raises an
uncaught `KeyError` naming the variable, while only a missing `FSLDIR` is
caught, printing the clear message and exiting with status 1. -/
theorem C2_missing_env_failure_modes (pd : String) (de : String → Bool)
    (env : String → Option String) (hdir : de pd = true) :
    (env "SING_AFNI" = none →
      main_validate pd de env = .keyError "SING_AFNI")
    ∧ (∀ a, env "SING_AFNI" = some a → env "SING_FMRIPREP" = none →
        main_validate pd de env = .keyError "SING_FMRIPREP")
    ∧ (∀ a b, env "SING_AFNI" = some a → env "SING_FMRIPREP" = some b →
        env "FS_LICENSE" = none →
        main_validate pd de env = .keyError "FS_LICENSE")
    ∧ (∀ a b c, env "SING_AFNI" = some a → env "SING_FMRIPREP" = some b →
        env "FS_LICENSE" = some c →
        env "SINGULARITYENV_TEMPLATEFLOW_HOME" = none →
        main_validate pd de env
          = .keyError "SINGULARITYENV_TEMPLATEFLOW_HOME")
    ∧ (∀ a b c d, env "SING_AFNI" = some a → env "SING_FMRIPREP" = some b →
        env "FS_LICENSE" = some c →
        env "SINGULARITYENV_TEMPLATEFLOW_HOME" = some d →
        env "USER" = none →
        main_validate pd de env = .keyError "USER")
    ∧ (∀ a b c d e, env "SING_AFNI" = some a →
        env "SING_FMRIPREP" = some b → env "FS_LICENSE" = some c →
        env "SINGULARITYENV_TEMPLATEFLOW_HOME" = some d →
        env "USER" = some e → env "FSLDIR" = none →
        main_validate pd de env
          = .exitMsg 1 "Missing required global variable FSLDIR") := by
  refine ⟨?_, ?_, ?_, ?_, ?_, ?_⟩ <;> intros <;>
    simp [main_validate, hdir, *]

/-- Witness for the amended C2 at two concrete environments: one lacking
only `FSLDIR` (message and exit 1) and one lacking `SING_FMRIPREP`
(uncaught `KeyError`). -/
theorem C2_witness :
    main_validate "/p" (fun _ => true)
        (fun k => if k = "FSLDIR" then none else some "/v")
      = .exitMsg 1 "Missing required global variable FSLDIR"
    ∧ main_validate "/p" (fun _ => true)
        (fun k => if k = "SING_FMRIPREP" then none else some "/v")
      = .keyError "SING_FMRIPREP" :=
  ⟨(C2_missing_env_failure_modes "/p" (fun _ => true)
      (fun k => if k = "FSLDIR" then none else some "/v") rfl).2.2.2.2.2
      "/v" "/v" "/v" "/v" "/v" (by decide) (by decide) (by decide)
      (by decide) (by decide) (by decide),
   (C2_missing_env_failure_modes "/p" (fun _ => true)
      (fun k => if k = "SING_FMRIPREP" then none else some "/v") rfl).2.1
      "/v" (by decide) (by decide)⟩

/-- Claim C4: `workflows.omnibus` on a `preproc_args` record missing any
one required key raises `KeyError` naming exactly that key, and with a
complete `preproc_args` a `model_args` record missing `model_name` raises
`KeyError` naming `model_name`; in both cases no workflow step is
triggered. -/
theorem C4_omnibus_keyerror_names_missing_key :
    (∀ (d m : PyDict) (k : String), k ∈ preproc_keys → hasKey d k = false →
      (∀ k2 ∈ preproc_keys, k2 ≠ k → hasKey d k2 = true) →
      omnibus d m = .keyError "preproc_args" k)
    ∧ (∀ (d m : PyDict), (∀ k ∈ preproc_keys, hasKey d k = true) →
        hasKey m "model_name" = false →
        omnibus d m = .keyError "model_args" "model_name") := by
  constructor
  · intro d m k hk hmiss hothers
    fin_cases hk
    · simp [omnibus, preproc_keys, List.find?, hmiss]
    · have h1 : hasKey d "sing_fmriprep" = true :=
        hothers _ (by simp [preproc_keys]) (by decide)
      simp [omnibus, preproc_keys, List.find?, hmiss, h1]
    · have h1 : hasKey d "sing_fmriprep" = true :=
        hothers _ (by simp [preproc_keys]) (by decide)
      have h2 : hasKey d "tplflow_dir" = true :=
        hothers _ (by simp [preproc_keys]) (by decide)
      simp [omnibus, preproc_keys, List.find?, hmiss, h1, h2]
    · have h1 : hasKey d "sing_fmriprep" = true :=
        hothers _ (by simp [preproc_keys]) (by decide)
      have h2 : hasKey d "tplflow_dir" = true :=
        hothers _ (by simp [preproc_keys]) (by decide)
      have h3 : hasKey d "fs_license" = true :=
        hothers _ (by simp [preproc_keys]) (by decide)
      simp [omnibus, preproc_keys, List.find?, hmiss, h1, h2, h3]
    · have h1 : hasKey d "sing_fmriprep" = true :=
        hothers _ (by simp [preproc_keys]) (by decide)
      have h2 : hasKey d "tplflow_dir" = true :=
        hothers _ (by simp [preproc_keys]) (by decide)
      have h3 : hasKey d "fs_license" = true :=
        hothers _ (by simp [preproc_keys]) (by decide)
      have h4 : hasKey d "fd_thresh" = true :=
        hothers _ (by simp [preproc_keys]) (by decide)
      simp [omnibus, preproc_keys, List.find?, hmiss, h1, h2, h3, h4]
    · have h1 : hasKey d "sing_fmriprep" = true :=
        hothers _ (by simp [preproc_keys]) (by decide)
      have h2 : hasKey d "tplflow_dir" = true :=
        hothers _ (by simp [preproc_keys]) (by decide)
      have h3 : hasKey d "fs_license" = true :=
        hothers _ (by simp [preproc_keys]) (by decide)
      have h4 : hasKey d "fd_thresh" = true :=
        hothers _ (by simp [preproc_keys]) (by decide)
      have h5 : hasKey d "ignore_fmaps" = true :=
        hothers _ (by simp [preproc_keys]) (by decide)
      simp [omnibus, preproc_keys, List.find?, hmiss, h1, h2, h3, h4, h5]
    · have h1 : hasKey d "sing_fmriprep" = true :=
        hothers _ (by simp [preproc_keys]) (by decide)
      have h2 : hasKey d "tplflow_dir" = true :=
        hothers _ (by simp [preproc_keys]) (by decide)
      have h3 : hasKey d "fs_license" = true :=
        hothers _ (by simp [preproc_keys]) (by decide)
      have h4 : hasKey d "fd_thresh" = true :=
        hothers _ (by simp [preproc_keys]) (by decide)
      have h5 : hasKey d "ignore_fmaps" = true :=
        hothers _ (by simp [preproc_keys]) (by decide)
      have h6 : hasKey d "no_freesurfer" = true :=
        hothers _ (by simp [preproc_keys]) (by decide)
      simp [omnibus, preproc_keys, List.find?, hmiss, h1, h2, h3, h4, h5,
        h6]
  · intro d m hall hmodel
    have h1 : hasKey d "sing_fmriprep" = true :=
      hall _ (by simp [preproc_keys])
    have h2 : hasKey d "tplflow_dir" = true :=
      hall _ (by simp [preproc_keys])
    have h3 : hasKey d "fs_license" = true :=
      hall _ (by simp [preproc_keys])
    have h4 : hasKey d "fd_thresh" = true :=
      hall _ (by simp [preproc_keys])
    have h5 : hasKey d "ignore_fmaps" = true :=
      hall _ (by simp [preproc_keys])
    have h6 : hasKey d "no_freesurfer" = true :=
      hall _ (by simp [preproc_keys])
    have h7 : hasKey d "sing_afni" = true :=
      hall _ (by simp [preproc_keys])
    simp [omnibus, preproc_keys, model_keys, List.find?, hmodel, h1, h2,
      h3, h4, h5, h6, h7]

/-- Witness for C4: a record lacking only `fd_thresh` yields `KeyError`
on `fd_thresh`, and a complete record with an empty `model_args` yields
`KeyError` on `model_name`. -/
theorem C4_witness :
    omnibus
        [("sing_fmriprep", .str "/fp"), ("tplflow_dir", .str "/t"),
         ("fs_license", .str "/l"), ("ignore_fmaps", .bool false),
         ("no_freesurfer", .bool true), ("sing_afni", .str "/a")]
        [("model_name", .str "rest")]
      = .keyError "preproc_args" "fd_thresh"
    ∧ omnibus
        [("sing_fmriprep", .str "/fp"), ("tplflow_dir", .str "/t"),
         ("fs_license", .str "/l"), ("fd_thresh", .float "0.5"),
         ("ignore_fmaps", .bool false), ("no_freesurfer", .bool true),
         ("sing_afni", .str "/a")]
        []
      = .keyError "model_args" "model_name" :=
  ⟨C4_omnibus_keyerror_names_missing_key.1 _ _ "fd_thresh" (by decide)
      (by decide) (by decide),
   C4_omnibus_keyerror_names_missing_key.2 _ _ (by decide) (by decide)⟩

/-- Slash is never a prefix of the generated script filename, which
starts with `run_`. -/
theorem slash_not_prefix_scriptFileName (wf subj sess : String) :
    "/".data.isPrefixOf (scriptFileName wf subj sess).data = false := by
  have h1 : ("/" : String).data = ['/'] := rfl
  have h2 : ("run_" : String).data = ['r', 'u', 'n', '_'] := rfl
  have h3 : (('/' : Char) == 'r') = false := rfl
  simp [scriptFileName, String.data_append, h1, h2, List.isPrefixOf, h3]

/-- Claim C6: one `omnibus` generation writes exactly one file, at the
deterministic path `<log_dir>/run_omnibus_<subj>_<sess>.py` (whenever the
log directory name is nonempty and does not end in a slash, as the
timestamped name built by `main` is), records that path in `py_script`,
touches no other path, and distinct subject identifiers give distinct
filenames within the shared log directory. -/
theorem C6_single_script_deterministic_path :
    (∀ (sw : ScheduleWorkflow) (st : SWState) (fs : Fs) (exe : String)
        (pa ma : PyDict),
      (sw.omnibus st fs exe pa ma).2 (sw.scriptPath "omnibus")
        = some (sw.omnibus_body exe pa ma)
      ∧ (∀ q, q ≠ sw.scriptPath "omnibus" →
          (sw.omnibus st fs exe pa ma).2 q = fs q)
      ∧ (sw.omnibus st fs exe pa ma).1.py_script
          = some (sw.scriptPath "omnibus"))
    ∧ (∀ sw : ScheduleWorkflow, sw.log_dir ≠ "" →
        sw.log_dir.data.getLast? ≠ some '/' →
        sw.scriptPath "omnibus"
          = sw.log_dir ++ "/" ++
            ("run_omnibus_" ++ sw.subj ++ "_" ++ sw.sess ++ ".py"))
    ∧ (∀ s1 s2 sess : String, s1 ≠ s2 →
        scriptFileName "omnibus" s1 sess ≠ scriptFileName "omnibus" s2 sess)
    := by
  refine ⟨?_, ?_, ?_⟩
  · intro sw st fs exe pa ma
    refine ⟨?_, ?_, rfl⟩
    · simp [ScheduleWorkflow.omnibus, ScheduleWorkflow._write_script]
    · intro q hq
      simp [ScheduleWorkflow.omnibus, ScheduleWorkflow._write_script, hq]
  · intro sw h1 h2
    simp [ScheduleWorkflow.scriptPath, ospath_join,
      slash_not_prefix_scriptFileName, h1, h2, scriptFileName]
  · intro s1 s2 sess hne heq
    apply hne
    apply String.ext
    have hd := congrArg String.data heq
    simp only [scriptFileName, String.data_append, List.append_assoc] at hd
    have hd1 := List.append_cancel_left hd
    have hd2 := List.append_cancel_left hd1
    have hd3 := List.append_cancel_left hd2
    exact List.append_cancel_right hd3

/-- Witness for C6 at concrete inputs: the untouched-path part, the path
shape, and the filename collision-freedom for two distinct subjects. -/
theorem C6_witness :
    (ScheduleWorkflow.omnibus ⟨"sub-1", "s", "p", "w", "l", "u"⟩
        SWState.init (fun _ => none) "py" [] []).2 "unrelated" = none
    ∧ ScheduleWorkflow.scriptPath ⟨"sub-1", "s", "p", "w", "l", "u"⟩
        "omnibus"
      = "l" ++ "/" ++ ("run_omnibus_" ++ "sub-1" ++ "_" ++ "s" ++ ".py")
    ∧ scriptFileName "omnibus" "sub-1" "s"
      ≠ scriptFileName "omnibus" "sub-2" "s" :=
  ⟨(C6_single_script_deterministic_path.1
      ⟨"sub-1", "s", "p", "w", "l", "u"⟩ SWState.init (fun _ => none)
      "py" [] []).2.1 "unrelated" (by decide),
   C6_single_script_deterministic_path.2.1
      ⟨"sub-1", "s", "p", "w", "l", "u"⟩ (by decide) (by decide),
   C6_single_script_deterministic_path.2.2 "sub-1" "sub-2" "s"
      (by decide)⟩

/-- Counterexample to claim C7 as stated: two generations with identical
subject, session, parameter records, directories and user produce
different script bodies when the interpreter path (`sys.executable`,
interpolated into the shebang line) differs between the two invocations —
a dynamic value not drawn from the inputs the claim lists. -/
theorem C7_counterexample :
    ScheduleWorkflow.omnibus_body ⟨"sub-1", "s", "p", "w", "l", "u"⟩
        "pyA" [] []
      ≠ ScheduleWorkflow.omnibus_body ⟨"sub-1", "s", "p", "w", "l", "u"⟩
        "pyB" [] [] := by
  decide

/-- Claim C7 (amended): the generated script body is a pure deterministic
function of subject, session, the parameter records, the directories, the
user name, and the interpreter path `sys.executable`: invocations
agreeing on all of these produce byte-identical bodies. -/
theorem C7_body_deterministic (sw1 sw2 : ScheduleWorkflow)
    (exe1 exe2 : String) (pa1 pa2 ma1 ma2 : PyDict) (hsw : sw1 = sw2)
    (hexe : exe1 = exe2) (hpa : pa1 = pa2) (hma : ma1 = ma2) :
    (sw1.omnibus_body exe1 pa1 ma1).data
      = (sw2.omnibus_body exe2 pa2 ma2).data := by
  subst hsw hexe hpa hma
  rfl

/-- Witness for the amended C7 at concrete inputs. -/
theorem C7_witness :
    (ScheduleWorkflow.omnibus_body ⟨"sub-1", "s", "p", "w", "l", "u"⟩
        "py" [] []).data
      = (ScheduleWorkflow.omnibus_body ⟨"sub-1", "s", "p", "w", "l", "u"⟩
        "py" [] []).data :=
  C7_body_deterministic ⟨"sub-1", "s", "p", "w", "l", "u"⟩
    ⟨"sub-1", "s", "p", "w", "l", "u"⟩ "py" "py" [] [] [] []
    rfl rfl rfl rfl

end FuncArchival
